import Mathlib

/-!
# Verification of the qr-scanner engine (src/dist/main.js)

Shallow embedding of the orchestration layer of the bundled QR scanner:
constraint negotiation for camera acquisition, the scanner session state
machine (start / stop / pause / grace-release timer), the scan-loop decode
completion handler, region-of-interest computation, engine creation, and the
flash controller.  Asynchronous platform calls (getUserMedia, visibility,
ImageCapture, applyConstraints) are modelled by an explicit environment
record; promise settlement is modelled by explicit completion functions.
-/

namespace QrScanner

/-- A media stream track, carrying the device label used for facing-mode
detection. -/
structure MediaTrack where
  label : String
deriving DecidableEq, Repr

/-- A camera media stream: a list of (video) tracks. -/
structure MediaStream where
  tracks : List MediaTrack
deriving DecidableEq, Repr

/-- The facing-mode part of a getUserMedia constraint: either a plain
(soft) `facingMode: mode` or a hard `facingMode: \x7bexact: mode\x7d`. -/
inductive FacingConstraint where
  | plain (mode : String)
  | exact (mode : String)
deriving DecidableEq, Repr

/-- One video constraint candidate as built by `_getCameraStream`:
an optional `width: \x7bmin: n\x7d` requirement plus an optional facing mode. -/
structure Constraint where
  widthMin : Option Nat
  facingMode : Option FacingConstraint
deriving DecidableEq, Repr

/-- The decode backend: a native `BarcodeDetector`, or a spawned worker
running the software decoder at the given script path. -/
inductive Engine where
  | native
  | worker (path : String)
deriving DecidableEq, Repr

/-- Platform environment: everything the scanner reads from the host
(browser) that is not part of its own state. -/
structure Env where
  /-- `document.hidden` -/
  hidden : Bool
  /-- `navigator.mediaDevices` is present -/
  hasMediaDevices : Bool
  /-- outcome of `navigator.mediaDevices.getUserMedia` for a given video
  constraint: `some stream` on success, `none` on rejection -/
  gUM : Constraint → Option MediaStream
  /-- `'BarcodeDetector' in window` -/
  hasBarcodeDetector : Bool
  /-- result of `BarcodeDetector.getSupportedFormats()` -/
  supportedFormats : List String
  /-- `'ImageCapture' in window` -/
  imageCaptureAvailable : Bool
  /-- result of `getPhotoCapabilities().fillLightMode`; `none` models the
  promise rejecting (which the code catches, yielding `false`) -/
  photoCapabilities : Option (List String)
  /-- whether `track.applyConstraints(\x7badvanced: [\x7btorch\x7d]\x7d)` fulfills -/
  applyConstraintsOk : Bool

/-- `QrScanner.NO_QR_CODE_FOUND` -/
def NO_QR_CODE_FOUND : String := "No QR code found"

/-- `QrScanner.DEFAULT_CANVAS_SIZE` -/
def DEFAULT_CANVAS_SIZE : Nat := 400

/-- `QrScanner.WORKER_PATH` -/
def WORKER_PATH : String := "qr-scanner-worker.min.js"

/-- Substring test on character lists, used to model JS `indexOf(...) !== -1`
and regex literal-alternative tests. -/
def strContains (s pat : String) : Bool :=
  s.toList.tails.any (fun t => pat.toList.isPrefixOf t)

/-- `createQrEngine` (main.js 277-283): if `BarcodeDetector` exists, ask it
for its supported formats (otherwise the format list is empty); build a
native detector exactly when `'qr_code'` is among them, else spawn a
worker. -/
def createQrEngine (env : Env) (workerPath : String := WORKER_PATH) : Engine :=
  let supportedFormats := if env.hasBarcodeDetector then env.supportedFormats else []
  if supportedFormats.contains "qr_code" then Engine.native else Engine.worker workerPath

/-- JS `Math.round` on rationals (half rounds up/towards +infinity). -/
def jsRound (q : ℚ) : ℤ := ⌊q + 1 / 2⌋

/-- The session's region-of-interest rectangle `_sourceRect`.  JS numbers for
`x`/`y` can be half-integers (`(w - side)/2`), so coordinates are rationals. -/
structure SourceRect where
  x : ℚ
  y : ℚ
  width : ℚ
  height : ℚ
deriving DecidableEq, Repr

/-- `_updateSourceRect` (main.js 298-304): the recomputed ROI for intrinsic
video dimensions `(videoWidth, videoHeight)`. -/
def updateSourceRect (videoWidth videoHeight : Nat) : SourceRect :=
  let smallestDimension : Nat := min videoWidth videoHeight
  let sourceRectSize : ℤ := jsRound (2 / 3 * smallestDimension)
  { width := sourceRectSize
    height := sourceRectSize
    x := (videoWidth - (sourceRectSize : ℚ)) / 2
    y := (videoHeight - (sourceRectSize : ℚ)) / 2 }

/-- The error handler's observable behaviour on an error string: `some m`
means it reports a user-visible message `m`, `none` means it suppresses the
error. -/
def ErrHandler : Type := String → Option String

/-- `_onDecodeError` (main.js 333-337), the default error handler: the
`NO_QR_CODE_FOUND` sentinel is suppressed, everything else is logged. -/
def defaultOnDecodeError : ErrHandler := fun error =>
  if error = NO_QR_CODE_FOUND then none else some error

/-- Mutable state of one scanner session (the `QrScanner` instance fields
together with the bits of the bound `$video` element the engine reads and
writes). -/
structure ScannerState where
  active : Bool
  paused : Bool
  flashOn : Bool
  preferredFacingMode : String
  canvasSize : Nat
  sourceRect : SourceRect
  /-- `$video.srcObject` -/
  videoSrcObject : Option MediaStream
  /-- `$video.paused` -/
  videoPaused : Bool
  /-- `$video.ended` -/
  videoEnded : Bool
  /-- whether `$video.style.transform` is `scaleX(-1)` -/
  videoMirrored : Bool
  /-- a pending `_offTimeout` grace-release timer -/
  offTimeout : Bool
  /-- the cached `_qrEnginePromise` handle -/
  qrEngine : Engine
  /-- the installed `_onDecodeError` handler -/
  onDecodeError : ErrHandler

/-- The constructor's third argument: a number (legacy canvas-size
signature) or an error callback. -/
inductive ThirdArg where
  | canvasSize (n : Nat)
  | onDecodeError (h : ErrHandler)

/-- The constructor (main.js 16-65).  A numeric third argument overrides the
canvas size and leaves the default error handler installed; otherwise the
third argument is installed as the error handler. -/
def mkScanner (env : Env)
    (third : ThirdArg := ThirdArg.onDecodeError defaultOnDecodeError)
    (canvasSize : Nat := DEFAULT_CANVAS_SIZE)
    (preferredFacingMode : String := "environment") : ScannerState :=
  let sizeAndHandler : Nat × ErrHandler :=
    match third with
    | ThirdArg.canvasSize n => (n, defaultOnDecodeError)
    | ThirdArg.onDecodeError h => (canvasSize, h)
  { active := false
    paused := false
    flashOn := false
    preferredFacingMode := preferredFacingMode
    canvasSize := sizeAndHandler.1
    sourceRect :=
      { x := 0, y := 0, width := sizeAndHandler.1, height := sizeAndHandler.1 }
    videoSrcObject := none
    videoPaused := true
    videoEnded := false
    videoMirrored := false
    offTimeout := false
    qrEngine := createQrEngine env
    onDecodeError := sizeAndHandler.2 }

/-- `_getCameraStream` (main.js 339-353), constraint-list construction: three
width candidates (min 1024, min 768, unconstrained); when a facing mode is
given it is attached to every candidate, wrapped as `\x7bexact: ...\x7d` when
`exact` is set. -/
def constraintsToTry (facingMode : Option String) (exact : Bool) : List Constraint :=
  let base : List Constraint :=
    [ { widthMin := some 1024, facingMode := none }
    , { widthMin := some 768, facingMode := none }
    , { widthMin := none, facingMode := none } ]
  match facingMode with
  | none => base
  | some fm =>
      let fc := if exact then FacingConstraint.exact fm else FacingConstraint.plain fm
      base.map (fun c => { c with facingMode := some fc })

/-- `_getMatchingCameraStream` (main.js 355-362): reject with
`"Camera not found."` when there is no media capability or the candidate
list is exhausted; otherwise call getUserMedia on the first candidate and on
rejection recurse on the remaining candidates.  Besides the result, the list
of constraints actually passed to getUserMedia is returned. -/
def getMatchingCameraStream (env : Env) :
    List Constraint → Except String MediaStream × List Constraint
  | [] => (Except.error "Camera not found.", [])
  | c :: rest =>
      if env.hasMediaDevices then
        match env.gUM c with
        | some stream => (Except.ok stream, [c])
        | none =>
            let r := getMatchingCameraStream env rest
            (r.1, c :: r.2)
      else (Except.error "Camera not found.", [])

/-- `_getCameraStream` (main.js 339-353): build the candidate list and run
the negotiation. -/
def getCameraStream (env : Env) (facingMode : Option String) (exact : Bool := false) :
    Except String MediaStream × List Constraint :=
  getMatchingCameraStream env (constraintsToTry facingMode exact)

/-- ASCII lowercasing of one character, modelling the case-insensitive `/i`
regex matching the code applies to device labels. -/
def charLower (c : Char) : Char :=
  if 'A' ≤ c ∧ c ≤ 'Z' then Char.ofNat (c.toNat + 32) else c

/-- ASCII lowercasing of a string. -/
def strLower (s : String) : String :=
  ⟨s.toList.map charLower⟩

/-- `_getFacingMode` (main.js 381-390): inspect the first video track's
label, case-insensitively, for rear/back/environment vs front/user/face
substrings; `none` when there is no track or neither matches. -/
def getFacingMode (videoStream : MediaStream) : Option String :=
  match videoStream.tracks.head? with
  | none => none
  | some videoTrack =>
      let label := strLower videoTrack.label
      if strContains label "rear" || strContains label "back"
          || strContains label "environment" then some "environment"
      else if strContains label "front" || strContains label "user"
          || strContains label "face" then some "user"
      else none

/-- The facing-mode flip in `start` (main.js 144):
`facingMode === 'environment' ? 'user' : 'environment'`. -/
def flipFacing (facingMode : String) : String :=
  if facingMode = "environment" then "user" else "environment"

/-- Settled outcome of `start()` (main.js 118-159). -/
inductive StartResult where
  | noopActive
  | deferredHidden
  | resumedExisting
  | started (stream : MediaStream)
  | failed (error : String)
deriving DecidableEq, Repr

/-- `start` (main.js 118-159), with the asynchronous stream acquisition
settled against `env`.  No-op when already active and unpaused; when the tab
is hidden the state flips to active but nothing else happens (in particular
a pending grace timer is NOT cleared); otherwise the grace timer is cleared,
an attached stream is simply resumed, and else a stream is acquired with the
preferred facing mode as an exact constraint, retried on failure with no
facing-mode argument at all, and on success attached, played and mirrored
when the resolved facing mode is `"user"`. -/
def startA (s : ScannerState) (env : Env) : ScannerState × StartResult :=
  if s.active && !s.paused then (s, StartResult.noopActive)
  else
    let s := { s with active := true, paused := false }
    if env.hidden then (s, StartResult.deferredHidden)
    else
      let s := { s with offTimeout := false }
      match s.videoSrcObject with
      | some _ => ({ s with videoPaused := false }, StartResult.resumedExisting)
      | none =>
          let fm0 := s.preferredFacingMode
          match (getCameraStream env (some fm0) true).1 with
          | Except.ok stream =>
              let fm := (getFacingMode stream).getD fm0
              ({ s with videoSrcObject := some stream, videoPaused := false,
                        videoMirrored := fm = "user" }, StartResult.started stream)
          | Except.error _ =>
              match (getCameraStream env none).1 with
              | Except.ok stream =>
                  let fm := (getFacingMode stream).getD (flipFacing fm0)
                  ({ s with videoSrcObject := some stream, videoPaused := false,
                            videoMirrored := fm = "user" }, StartResult.started stream)
              | Except.error e =>
                  ({ s with active := false }, StartResult.failed e)

/-- The getUserMedia calls `start` performs, in order (empty when `start`
returns before reaching `_getCameraStream`). -/
def startGumAttempts (s : ScannerState) (env : Env) : List Constraint :=
  if s.active && !s.paused then []
  else if env.hidden then []
  else
    match s.videoSrcObject with
    | some _ => []
    | none =>
        let first := getCameraStream env (some s.preferredFacingMode) true
        match first.1 with
        | Except.ok _ => first.2
        | Except.error _ => first.2 ++ (getCameraStream env none).2

/-- `pause` (main.js 166-183): set `_paused`; when active, pause playback
and, unless one is already pending, schedule the 300 ms grace-release
timer. -/
def pauseA (s : ScannerState) : ScannerState :=
  let s := { s with paused := true }
  if !s.active then s
  else
    let s := { s with videoPaused := true }
    if s.offTimeout then s else { s with offTimeout := true }

/-- `stop` (main.js 161-164): pause, then clear `_active`. -/
def stopA (s : ScannerState) : ScannerState :=
  { pauseA s with active := false }

/-- `destroy` (main.js 108-115) on the session state: unbinding listeners
and posting `close` to the worker do not touch the modelled state, so the
state effect is that of `stop`. -/
def destroyA (s : ScannerState) : ScannerState :=
  stopA s

/-- The `_offTimeout` callback (main.js 175-182) firing after the 300 ms
grace window: stop every track of the attached stream (if any), clear the
video source and the timer handle.  Second component: the tracks on which
`.stop()` was called. -/
def timerFire (s : ScannerState) : ScannerState × List MediaTrack :=
  let tracks := match s.videoSrcObject with
    | some stream => stream.tracks
    | none => []
  ({ s with videoSrcObject := none, offTimeout := false }, tracks)

/-- Settled outcome of one decode request (`scanImage` resolving with a
payload or rejecting with an error string; the "no code" rejection carries
the `NO_QR_CODE_FOUND` sentinel). -/
inductive DecodeOutcome where
  | ok (payload : String)
  | err (msg : String)
deriving DecidableEq, Repr

/-- Observable actions of the scan-loop completion handler. -/
inductive Event where
  /-- the caller's success callback `_onDecode` was invoked -/
  | onDecodeCall (payload : String)
  /-- the installed `_onDecodeError` handler was invoked -/
  | onDecodeErrorCall (error : String)
  /-- the handler reported a user-visible error message -/
  | userVisibleError (msg : String)
  /-- the backend was replaced by a freshly created engine -/
  | engineRecreated
  /-- a next scan frame was scheduled via requestAnimationFrame -/
  | frameScheduled
deriving DecidableEq, Repr

/-- The guard at the top of `_scanFrame` (main.js 307): a next frame is
scheduled only while active and the video is neither paused nor ended. -/
def scanFrameSchedules (s : ScannerState) : Bool :=
  s.active && !s.videoPaused && !s.videoEnded

/-- The decode-completion continuation in `_scanFrame` (main.js 318-329):
on fulfillment, `_onDecode` is invoked (with no check of `_active`); on
rejection, the handler returns early when no longer active, otherwise
recreates the engine when the message mentions `service unavailable` and
invokes `_onDecodeError`; in every case the final continuation calls
`_scanFrame` again, which schedules a next frame exactly under its guard. -/
def onDecodeSettled (s : ScannerState) (env : Env) (outcome : DecodeOutcome) :
    ScannerState × List Event :=
  match outcome with
  | DecodeOutcome.ok payload =>
      (s, Event.onDecodeCall payload ::
            (if scanFrameSchedules s then [Event.frameScheduled] else []))
  | DecodeOutcome.err msg =>
      if s.active then
        let replace := strContains msg "service unavailable"
        let s' := if replace then { s with qrEngine := createQrEngine env } else s
        let handlerEvents := Event.onDecodeErrorCall msg ::
          (match s'.onDecodeError msg with
           | some m => [Event.userVisibleError m]
           | none => [])
        (s', (if replace then [Event.engineRecreated] else []) ++ handlerEvents ++
              (if scanFrameSchedules s' then [Event.frameScheduled] else []))
      else
        (s, if scanFrameSchedules s then [Event.frameScheduled] else [])

/-- Settlement of the `hasFlash()` promise (main.js 68-87). -/
inductive FlashCheck where
  | resolved (b : Bool)
  | rejected (msg : String)
deriving DecidableEq, Repr

/-- `hasFlash` (main.js 68-87): resolves `false` when ImageCapture is
unavailable; rejects when no video track exists; otherwise reports whether
the photo capabilities list flash, resolving `false` when capability probing
itself fails. -/
def hasFlash (s : ScannerState) (env : Env) : FlashCheck :=
  if !env.imageCaptureAvailable then FlashCheck.resolved false
  else
    let track := match s.videoSrcObject with
      | some stream => stream.tracks.head?
      | none => none
    match track with
    | none => FlashCheck.rejected "Camera not started or not available"
    | some _ =>
        match env.photoCapabilities with
        | none => FlashCheck.resolved false
        | some caps => FlashCheck.resolved (caps.contains "flash")

/-- `_setFlash` (main.js 365-373): probe `hasFlash`; reject when it rejects
or reports no flash; otherwise apply the torch constraint and only after it
fulfills update the cached `_flashOn` state. -/
def setFlash (s : ScannerState) (env : Env) (torchOn : Bool) :
    ScannerState × Except String Unit :=
  match hasFlash s env with
  | FlashCheck.rejected msg => (s, Except.error msg)
  | FlashCheck.resolved false => (s, Except.error "No flash available")
  | FlashCheck.resolved true =>
      if env.applyConstraintsOk then ({ s with flashOn := torchOn }, Except.ok ())
      else (s, Except.error "applyConstraints rejected")

/-- `toggleFlash` (main.js 94-96). -/
def toggleFlash (s : ScannerState) (env : Env) : ScannerState × Except String Unit :=
  setFlash s env (!s.flashOn)

/-- `turnFlashOff` (main.js 99-101). -/
def turnFlashOff (s : ScannerState) (env : Env) : ScannerState × Except String Unit :=
  setFlash s env false

/-- `turnFlashOn` (main.js 104-106). -/
def turnFlashOn (s : ScannerState) (env : Env) : ScannerState × Except String Unit :=
  setFlash s env true

/-- `isFlashOn` (main.js 89-91): synchronously reads the cached state. -/
def isFlashOn (s : ScannerState) : Bool :=
  s.flashOn

/-! ## Concrete fixtures used by witnesses and counterexamples -/

/-- A rear camera track. -/
def trackBack : MediaTrack := { label := "Back Camera" }

/-- A stream from the rear camera. -/
def streamBack : MediaStream := { tracks := [trackBack] }

/-- A stream from a front (user-facing) camera. -/
def userStream : MediaStream := { tracks := [{ label := "FaceTime HD Camera (user)" }] }

/-- A fully capable visible-page platform whose getUserMedia always grants
the rear camera. -/
def envBase : Env :=
  { hidden := false
    hasMediaDevices := true
    gUM := fun _ => some streamBack
    hasBarcodeDetector := true
    supportedFormats := ["qr_code"]
    imageCaptureAvailable := true
    photoCapabilities := some ["flash"]
    applyConstraintsOk := true }

/-- `envBase` with the tab hidden. -/
def envHidden : Env := { envBase with hidden := true }

/-- `envBase` without `navigator.mediaDevices`. -/
def envNoMedia : Env := { envBase with hasMediaDevices := false }

/-- `envBase` without the native `BarcodeDetector`. -/
def envNoDetector : Env := { envBase with hasBarcodeDetector := false }

/-- `envBase` whose camera advertises no flash capability. -/
def envNoFlash : Env := { envBase with photoCapabilities := some ([] : List String) }

/-- A platform with only a user-facing device: any facing-mode constraint
fails, an unconstrained request yields the user-facing stream. -/
def envUserOnly : Env :=
  { envBase with gUM := fun c => if c.facingMode = none then some userStream else none }

/-- A freshly constructed session (inactive, no stream attached). -/
def sFresh : ScannerState := mkScanner envBase

/-- A session that is actively scanning the rear-camera stream. -/
def sRunning : ScannerState :=
  { sFresh with active := true, paused := false,
                videoSrcObject := some streamBack, videoPaused := false }

/-! ## Claim theorems -/

/-- The rounded two-thirds ROI side never exceeds the dimension it was
derived from. -/
theorem jsRound_two_thirds_le (m : Nat) : ((jsRound (2 / 3 * m) : ℤ) : ℚ) ≤ m := by
  have h : jsRound (2 / 3 * m) < (m : ℤ) + 1 := by
    rw [jsRound, Int.floor_lt]
    push_cast
    have hm : (0 : ℚ) ≤ m := Nat.cast_nonneg m
    linarith
  have h2 : jsRound (2 / 3 * (m : ℚ)) ≤ (m : ℤ) := by omega
  exact_mod_cast h2

/-- C5: for video intrinsic dimensions `(w, h)`, the recomputed region of
interest is a square of side `round(2/3 * min(w, h))`, positioned at
`x = (w - side)/2`, `y = (h - side)/2`, and its side is at most
`min(w, h)`. -/
theorem C5_sourceRect (w h : Nat) :
    (updateSourceRect w h).width = (updateSourceRect w h).height ∧
    (updateSourceRect w h).width = ((jsRound (2 / 3 * (min w h : Nat)) : ℤ) : ℚ) ∧
    (updateSourceRect w h).x = ((w : ℚ) - (updateSourceRect w h).width) / 2 ∧
    (updateSourceRect w h).y = ((h : ℚ) - (updateSourceRect w h).height) / 2 ∧
    (updateSourceRect w h).width ≤ ((min w h : Nat) : ℚ) := by
  refine ⟨rfl, rfl, rfl, rfl, ?_⟩
  exact jsRound_two_thirds_le (min w h)

/-- C8: engine creation yields the native detector exactly when the platform
has a `BarcodeDetector` whose supported formats include the QR symbology,
and otherwise a worker spawned at the given script path; the constructor
caches exactly one such engine handle for the session. -/
theorem C8_engineChoice (env : Env) (workerPath : String)
    (third : ThirdArg) (cs : Nat) (pf : String) :
    (createQrEngine env workerPath = Engine.native ↔
      env.hasBarcodeDetector = true ∧ env.supportedFormats.contains "qr_code" = true) ∧
    (¬(env.hasBarcodeDetector = true ∧ env.supportedFormats.contains "qr_code" = true) →
      createQrEngine env workerPath = Engine.worker workerPath) ∧
    (mkScanner env third cs pf).qrEngine = createQrEngine env := by
  refine ⟨?_, ?_, rfl⟩ <;>
  · unfold createQrEngine
    by_cases hb : env.hasBarcodeDetector = true <;>
      by_cases hq : env.supportedFormats.contains "qr_code" = true <;>
        simp [hb, hq]

/-- C8 witness: on a platform advertising QR support the engine is native;
without `BarcodeDetector` it is the worker. -/
theorem C8_witness :
    createQrEngine envBase WORKER_PATH = Engine.native ∧
    createQrEngine envNoDetector WORKER_PATH = Engine.worker WORKER_PATH := by
  constructor
  · exact (C8_engineChoice envBase WORKER_PATH (ThirdArg.canvasSize 1) 1 "x").1.mpr
      ⟨rfl, by decide⟩
  · exact (C8_engineChoice envNoDetector WORKER_PATH (ThirdArg.canvasSize 1) 1 "x").2.1
      (by simp [envNoDetector, envBase])

/-- C9: a numeric third constructor argument is treated as the legacy canvas
size and leaves the default (sentinel-suppressing) error handler installed;
a non-numeric third argument is installed as the error callback while the
canvas size comes from the fourth argument. -/
theorem C9_constructorThirdArg (env : Env) (n : Nat) (h : ErrHandler)
    (cs : Nat) (pf : String) :
    (mkScanner env (ThirdArg.canvasSize n) cs pf).canvasSize = n ∧
    (mkScanner env (ThirdArg.canvasSize n) cs pf).onDecodeError = defaultOnDecodeError ∧
    defaultOnDecodeError NO_QR_CODE_FOUND = none ∧
    (mkScanner env (ThirdArg.onDecodeError h) cs pf).canvasSize = cs ∧
    (mkScanner env (ThirdArg.onDecodeError h) cs pf).onDecodeError = h := by
  exact ⟨rfl, rfl, by decide, rfl, rfl⟩

/-- C10: for every flash-toggle operation, the cached `_flashOn` state read
by `isFlashOn` is updated only after the torch constraint applies
successfully; on any rejection it is unchanged.  `toggleFlash`,
`turnFlashOn` and `turnFlashOff` all go through `_setFlash`. -/
theorem C10_flashCache (s : ScannerState) (env : Env) :
    (∀ t : Bool,
      ((setFlash s env t).2 = Except.ok () → isFlashOn (setFlash s env t).1 = t) ∧
      ((setFlash s env t).2 ≠ Except.ok () →
        isFlashOn (setFlash s env t).1 = isFlashOn s)) ∧
    toggleFlash s env = setFlash s env (!s.flashOn) ∧
    turnFlashOn s env = setFlash s env true ∧
    turnFlashOff s env = setFlash s env false := by
  refine ⟨fun t => ?_, rfl, rfl, rfl⟩
  unfold setFlash isFlashOn
  cases hfl : hasFlash s env with
  | rejected msg => simp
  | resolved b =>
      cases b
      · simp
      · by_cases hc : env.applyConstraintsOk = true <;> simp [hc]

/-- C10 witness: with flash available and the constraint applying, the cache
becomes `true`; with no flash capability it stays at its old value. -/
theorem C10_witness :
    isFlashOn (setFlash sRunning envBase true).1 = true ∧
    isFlashOn (setFlash sRunning envNoFlash true).1 = isFlashOn sRunning := by
  constructor
  · exact ((C10_flashCache sRunning envBase).1 true).1 rfl
  · exact ((C10_flashCache sRunning envNoFlash).1 true).2
      (fun hcon => Except.noConfusion hcon)

/-- C7: `start()` on a session that is already active and unpaused is a
no-op: the state is unchanged, no getUserMedia call is made, and an
immediately following second `start()` is equally a no-op, so no second
stream is ever acquired. -/
theorem C7_startIdempotent (s : ScannerState) (env : Env)
    (h1 : s.active = true) (h2 : s.paused = false) :
    startA s env = (s, StartResult.noopActive) ∧
    startGumAttempts s env = [] ∧
    startA (startA s env).1 env = (s, StartResult.noopActive) := by
  have hc : (s.active && !s.paused) = true := by rw [h1, h2]; rfl
  have hfirst : startA s env = (s, StartResult.noopActive) := by
    unfold startA
    rw [hc]
    rfl
  refine ⟨hfirst, ?_, ?_⟩
  · unfold startGumAttempts
    rw [hc]
    rfl
  · rw [hfirst]
    exact hfirst

/-- C7 witness: a running session ignores repeated `start()` calls. -/
theorem C7_witness :
    startA sRunning envBase = (sRunning, StartResult.noopActive) ∧
    startGumAttempts sRunning envBase = [] ∧
    startA (startA sRunning envBase).1 envBase = (sRunning, StartResult.noopActive) :=
  C7_startIdempotent sRunning envBase rfl rfl

/-- Constraint negotiation rejects with `"Camera not found."` exactly when
there is no media capability at all or every candidate fails. -/
theorem getMatchingCameraStream_error_iff (env : Env) (cs : List Constraint) :
    (getMatchingCameraStream env cs).1 = Except.error "Camera not found." ↔
      (env.hasMediaDevices = false ∨ ∀ c ∈ cs, env.gUM c = none) := by
  induction cs with
  | nil => simp [getMatchingCameraStream]
  | cons c rest ih =>
      by_cases hmd : env.hasMediaDevices = true
      · cases hg : env.gUM c with
        | some stream => simp [getMatchingCameraStream, hmd, hg]
        | none => simp [getMatchingCameraStream, hmd, hg, ih]
      · have hmd' : env.hasMediaDevices = false := by
          cases hx : env.hasMediaDevices
          · rfl
          · exact absurd hx hmd
        simp [getMatchingCameraStream, hmd']

/-- The only rejection value constraint negotiation produces is
`"Camera not found."`. -/
theorem getMatchingCameraStream_error_val (env : Env) (cs : List Constraint) (e : String)
    (h : (getMatchingCameraStream env cs).1 = Except.error e) :
    e = "Camera not found." := by
  induction cs with
  | nil =>
      simp [getMatchingCameraStream] at h
      exact h.symm
  | cons c rest ih =>
      by_cases hmd : env.hasMediaDevices = true
      · cases hg : env.gUM c with
        | some stream => simp [getMatchingCameraStream, hmd, hg] at h
        | none =>
            simp only [getMatchingCameraStream, hmd, hg, if_true] at h
            exact ih h
      · have hmd' : env.hasMediaDevices = false := by
          cases hx : env.hasMediaDevices
          · rfl
          · exact absurd hx hmd
        simp [getMatchingCameraStream, hmd'] at h
        exact h.symm

/-- The constraint list the C6 claim describes, following its words: each
width candidate combined with the requested facing mode, the facing mode
made exact only for the FIRST attempt when `exact` is set. -/
def constraintsClaimed (fm : String) (exact : Bool) : List Constraint :=
  [ { widthMin := some 1024
      facingMode := some (if exact then FacingConstraint.exact fm
                          else FacingConstraint.plain fm) }
  , { widthMin := some 768, facingMode := some (FacingConstraint.plain fm) }
  , { widthMin := none, facingMode := some (FacingConstraint.plain fm) } ]

/-- C6 counterexample: with `exact` set, the code attaches the exact facing
mode to ALL THREE candidates, so the built list differs from the
claim-described list (which keeps exactness to the first attempt only)
already at the second candidate. -/
theorem C6_counterexample :
    constraintsToTry (some "environment") true ≠ constraintsClaimed "environment" true ∧
    (constraintsToTry (some "environment") true).map Constraint.facingMode =
      [ some (FacingConstraint.exact "environment")
      , some (FacingConstraint.exact "environment")
      , some (FacingConstraint.exact "environment") ] ∧
    (constraintsClaimed "environment" true).map Constraint.facingMode =
      [ some (FacingConstraint.exact "environment")
      , some (FacingConstraint.plain "environment")
      , some (FacingConstraint.plain "environment") ] := by
  refine ⟨by decide, by decide, by decide⟩

/-- C6 (amended): every camera acquisition tries descending width minima
(1024, then 768, then unconstrained), each candidate carrying the requested
facing mode — made an exact (hard) constraint for EVERY attempt when
`exact` is set; on a candidate's failure the next, less restrictive
candidate is tried, and the result is the `"Camera not found."` rejection
exactly when the candidate list is exhausted (all candidates failed) or no
media capability exists at all. -/
theorem C6_amended (fm : String) (exact : Bool) (env : Env) :
    ((constraintsToTry (some fm) exact).map Constraint.widthMin =
      [some 1024, some 768, none]) ∧
    (∀ c ∈ constraintsToTry (some fm) exact,
      c.facingMode = some (if exact then FacingConstraint.exact fm
                           else FacingConstraint.plain fm)) ∧
    (∀ c rest, env.hasMediaDevices = true → env.gUM c = none →
      (getMatchingCameraStream env (c :: rest)).1 =
        (getMatchingCameraStream env rest).1) ∧
    (∀ cs : List Constraint,
      ((getMatchingCameraStream env cs).1 = Except.error "Camera not found." ↔
        (env.hasMediaDevices = false ∨ ∀ c ∈ cs, env.gUM c = none))) ∧
    (∀ (cs : List Constraint) (e : String),
      (getMatchingCameraStream env cs).1 = Except.error e →
        e = "Camera not found.") := by
  refine ⟨?_, ?_, ?_, fun cs => getMatchingCameraStream_error_iff env cs,
    fun cs e => getMatchingCameraStream_error_val env cs e⟩
  · cases exact <;> rfl
  · intro c hc
    cases exact <;> simp [constraintsToTry] at hc <;>
      rcases hc with h | h | h <;> simp [h]
  · intro c rest hmd hg
    simp [getMatchingCameraStream, hmd, hg]

/-- C6 witness: with no media capability the negotiation rejects with the
camera-not-found error; the width ladder is 1024, 768, unconstrained. -/
theorem C6_witness :
    (constraintsToTry (some "user") true).map Constraint.widthMin =
      [some 1024, some 768, none] ∧
    (getMatchingCameraStream envNoMedia (constraintsToTry (some "user") true)).1 =
      Except.error "Camera not found." := by
  refine ⟨(C6_amended "user" true envNoMedia).1, ?_⟩
  exact ((C6_amended "user" true envNoMedia).2.2.2.1 _).mpr (Or.inl rfl)

/-- The retry acquisition as the C2 claim describes it, following its
words: a constraint list built for the opposite facing mode with no
exactness. -/
def claimedRetryConstraints (preferredFacingMode : String) : List Constraint :=
  constraintsToTry (some (flipFacing preferredFacingMode)) false

/-- C2 counterexample: on a platform with only a user-facing device, the
exact-"environment" attempts all fail and the code's retry passes NO
facing-mode constraint at all (fourth getUserMedia call carries
`facingMode := none`), whereas the claim's retry would carry the opposite
facing mode `user` as a plain constraint. -/
theorem C2_counterexample :
    startGumAttempts sFresh envUserOnly =
      [ { widthMin := some 1024, facingMode := some (FacingConstraint.exact "environment") }
      , { widthMin := some 768, facingMode := some (FacingConstraint.exact "environment") }
      , { widthMin := none, facingMode := some (FacingConstraint.exact "environment") }
      , { widthMin := some 1024, facingMode := none } ] ∧
    (claimedRetryConstraints "environment").head? =
      some { widthMin := some 1024, facingMode := some (FacingConstraint.plain "user") } ∧
    (none : Option FacingConstraint) ≠ some (FacingConstraint.plain "user") := by
  refine ⟨by decide, by decide, by decide⟩

/-- C2 (amended): when acquiring a stream with the preferred facing mode as
an exact constraint fails, the session retries stream acquisition exactly
once, with no facing-mode constraint at all; the opposite facing mode only
serves as the fallback guess for the mirroring decision, and on success of
the retry the horizontal flip is applied iff the resolved facing mode
(track-label detection, else that guess) is user-facing. -/
theorem C2_amended (s : ScannerState) (env : Env) (stream : MediaStream) (e : String)
    (ha : s.active = false) (hh : env.hidden = false) (hv : s.videoSrcObject = none)
    (h1 : (getCameraStream env (some s.preferredFacingMode) true).1 = Except.error e)
    (h2 : (getCameraStream env none).1 = Except.ok stream) :
    (startA s env).2 = StartResult.started stream ∧
    ((startA s env).1.videoMirrored = true ↔
      (getFacingMode stream).getD (flipFacing s.preferredFacingMode) = "user") ∧
    startGumAttempts s env =
      (getCameraStream env (some s.preferredFacingMode) true).2 ++
        (getCameraStream env none).2 := by
  have hc : (s.active && !s.paused) = false := by rw [ha]; rfl
  refine ⟨?_, ?_, ?_⟩ <;>
    simp [startA, startGumAttempts, hc, hh, hv, h1, h2]

/-- C2 witness: with only a user-facing camera, requesting exact
"environment" succeeds through the retry and mirroring is enabled. -/
theorem C2_witness :
    (startA sFresh envUserOnly).2 = StartResult.started userStream ∧
    (startA sFresh envUserOnly).1.videoMirrored = true := by
  have h := C2_amended sFresh envUserOnly userStream "Camera not found."
    rfl rfl rfl rfl rfl
  exact ⟨h.1, h.2.1.mpr (by decide)⟩

/-- C3 counterexample: with the page hidden, `start()` returns before the
timer-clearing step.  After `pause()` on a running session, a `start()`
made while the tab is hidden leaves the grace timer pending, and when it
fires the attached stream's tracks are stopped — so pause-then-start within
the 300 ms window does stop the tracks. -/
theorem C3_counterexample :
    (pauseA sRunning).offTimeout = true ∧
    (startA (pauseA sRunning) envHidden).1.offTimeout = true ∧
    (timerFire (startA (pauseA sRunning) envHidden).1).2 = [trackBack] := by
  refine ⟨by decide, by decide, by decide⟩

/-- C3 (amended): a call to `start()` made while the page is visible on a
paused session cancels the pending grace timer (so pause-then-start within
300 ms while visible never reaches the track-stopping callback; a hidden
`start()` returns before the timer-clearing step and does not); `pause()`
on an active session schedules the timer; and when the timer fires, all
tracks of the attached stream are stopped and the video source is
cleared. -/
theorem C3_amended (s : ScannerState) (env : Env)
    (hh : env.hidden = false) (hp : s.paused = true) :
    (startA s env).1.offTimeout = false ∧
    (s.active = true → (pauseA s).offTimeout = true) ∧
    (∀ s' : ScannerState, (timerFire s').1.videoSrcObject = none ∧
      ∀ stream, s'.videoSrcObject = some stream → (timerFire s').2 = stream.tracks) := by
  refine ⟨?_, ?_, ?_⟩
  · have hc : (s.active && !s.paused) = false := by rw [hp]; simp
    unfold startA
    rw [hc, hh]
    simp only [Bool.false_eq_true, if_false]
    split
    · rfl
    · split
      · rfl
      · split <;> rfl
  · intro ha
    unfold pauseA
    simp only [ha, Bool.not_true, Bool.false_eq_true, if_false]
    by_cases ho : s.offTimeout = true <;> simp [ho]
  · intro s'
    refine ⟨rfl, ?_⟩
    intro stream hst
    simp [timerFire, hst]

/-- C3 witness: `pause()` on the running session schedules the timer, a
visible `start()` cancels it, and a firing timer stops exactly the attached
stream's tracks and clears the source. -/
theorem C3_witness :
    (startA (pauseA sRunning) envBase).1.offTimeout = false ∧
    (timerFire (pauseA sRunning)).1.videoSrcObject = none ∧
    (timerFire (pauseA sRunning)).2 = streamBack.tracks := by
  have h := C3_amended (pauseA sRunning) envBase rfl rfl
  exact ⟨h.1, (h.2.2 (pauseA sRunning)).1, (h.2.2 (pauseA sRunning)).2 streamBack rfl⟩

/-- The session after `stop()` was called on the running fixture. -/
def sStopped : ScannerState := stopA sRunning

/-- C1 counterexample: after `stop()`, a decode request that settles
successfully still invokes the caller's success callback — the fulfillment
path of the completion handler performs no active-flag check, refuting
"once the session is no longer active, no caller callback is invoked". -/
theorem C1_counterexample :
    sStopped.active = false ∧
    (onDecodeSettled sStopped envBase (DecodeOutcome.ok "hello")).2 =
      [Event.onDecodeCall "hello"] := by
  exact ⟨rfl, by decide⟩

/-- C1 (amended): `stop()` / `destroy()` during an in-flight decode does
not cancel the pending request; when it settles, the handler checks the
active flag before invoking the caller's ERROR callback and before any
further frame is scheduled — once inactive, the only event that can still
occur is the caller's SUCCESS callback, which is invoked with no
active-flag check. -/
theorem C1_amended (s0 : ScannerState) (env : Env) (outcome : DecodeOutcome) :
    (stopA s0).active = false ∧
    destroyA s0 = stopA s0 ∧
    (∀ e ∈ (onDecodeSettled (stopA s0) env outcome).2,
      ∃ p, e = Event.onDecodeCall p) ∧
    (∀ p, outcome = DecodeOutcome.ok p →
      Event.onDecodeCall p ∈ (onDecodeSettled (stopA s0) env outcome).2) := by
  have hact : (stopA s0).active = false := rfl
  refine ⟨rfl, rfl, ?_, ?_⟩
  · intro e he
    cases outcome with
    | ok payload =>
        simp [onDecodeSettled, scanFrameSchedules, hact] at he
        exact ⟨payload, he⟩
    | err msg =>
        simp [onDecodeSettled, scanFrameSchedules, hact] at he
  · intro p hpo
    subst hpo
    simp [onDecodeSettled, scanFrameSchedules, hact]

/-- C1 witness: a successful settlement after `stop()` on the running
fixture still delivers the payload to the success callback. -/
theorem C1_witness :
    Event.onDecodeCall "hello" ∈
      (onDecodeSettled (stopA sRunning) envBase (DecodeOutcome.ok "hello")).2 :=
  (C1_amended sRunning envBase (DecodeOutcome.ok "hello")).2.2.2 "hello" rfl

/-- C4: a decode cycle settling with the `NO_QR_CODE_FOUND` sentinel on an
active, playing session with the default error handler invokes the handler
but produces no user-visible error, never touches the success callback,
still schedules the next cycle, and leaves the state unchanged. -/
theorem C4_notFoundSuppressed (s : ScannerState) (env : Env)
    (ha : s.active = true) (hvp : s.videoPaused = false) (hve : s.videoEnded = false)
    (hd : s.onDecodeError = defaultOnDecodeError) :
    (∀ m, Event.userVisibleError m ∉
      (onDecodeSettled s env (DecodeOutcome.err NO_QR_CODE_FOUND)).2) ∧
    (∀ p, Event.onDecodeCall p ∉
      (onDecodeSettled s env (DecodeOutcome.err NO_QR_CODE_FOUND)).2) ∧
    Event.frameScheduled ∈
      (onDecodeSettled s env (DecodeOutcome.err NO_QR_CODE_FOUND)).2 ∧
    Event.onDecodeErrorCall NO_QR_CODE_FOUND ∈
      (onDecodeSettled s env (DecodeOutcome.err NO_QR_CODE_FOUND)).2 ∧
    (onDecodeSettled s env (DecodeOutcome.err NO_QR_CODE_FOUND)).1 = s := by
  have hsvc : strContains NO_QR_CODE_FOUND "service unavailable" = false := by decide
  have hsch : scanFrameSchedules s = true := by
    simp [scanFrameSchedules, ha, hvp, hve]
  have hev : onDecodeSettled s env (DecodeOutcome.err NO_QR_CODE_FOUND) =
      (s, [Event.onDecodeErrorCall NO_QR_CODE_FOUND, Event.frameScheduled]) := by
    simp [onDecodeSettled, ha, hsvc, hd, defaultOnDecodeError, hsch]
  rw [hev]
  refine ⟨?_, ?_, ?_, ?_, rfl⟩ <;> simp

/-- C4 witness: on the running fixture the sentinel settlement schedules
the next cycle and reports nothing user-visible. -/
theorem C4_witness :
    Event.frameScheduled ∈
      (onDecodeSettled sRunning envBase (DecodeOutcome.err NO_QR_CODE_FOUND)).2 ∧
    Event.userVisibleError NO_QR_CODE_FOUND ∉
      (onDecodeSettled sRunning envBase (DecodeOutcome.err NO_QR_CODE_FOUND)).2 := by
  have h := C4_notFoundSuppressed sRunning envBase rfl rfl rfl rfl
  exact ⟨h.2.2.1, h.1 NO_QR_CODE_FOUND⟩

end QrScanner
